import Mathlib

/-!
Verification of the core game-state engine of the auragrowth repository
(src/core/models.py and src/core/utils.py), shallowly embedded in Lean 4.

Django model instances are embedded as Lean structures with integer fields
(Django IntegerField is an arbitrary-precision Python int in memory), and the
mutating methods become pure state-transforming functions.  Database `save()`
calls persist in-memory state and are no-ops in the pure model, except where a
claim is about failure handling, in which case the fallible persistence
collaborators are passed in explicitly.
-/

namespace Aura

/-- The `Profile` Django model (src/core/models.py, class Profile): the fields
mutated by the progression engine.  CharField metadata (name, avatar, class,
personality, timezone) is omitted: no method under verification reads it. -/
structure Profile where
  level : Int
  strength : Int
  intelligence : Int
  charisma : Int
  endurance : Int
  luck : Int
  total_xp : Int
  xp_to_next_level : Int
deriving DecidableEq

/-- Models `int(x * 1.2)` from `Profile.level_up` as exact rational truncation
`x * 12 / 10` (Lean `Int` division truncates toward zero for the nonnegative
operands all claims use).  Binary floating-point rounding of `x * 1.2` can in
principle deviate from exact truncation for astronomically large thresholds;
at every concrete value appearing in the claims (10000, 12000) the float
product is exact enough that `int` agrees with this definition. -/
def growth (x : Int) : Int := x * 12 / 10

/-- `Profile.level_up` (models.py lines 65-76): +1 level, subtract the current
threshold from total_xp, grow the threshold by the truncated 1.2 factor, and
+1 to each of the five stats. -/
def level_up (p : Profile) : Profile :=
  { p with
    level := p.level + 1
    total_xp := p.total_xp - p.xp_to_next_level
    xp_to_next_level := growth p.xp_to_next_level
    strength := p.strength + 1
    intelligence := p.intelligence + 1
    charisma := p.charisma + 1
    endurance := p.endurance + 1
    luck := p.luck + 1 }

/-- The `while self.total_xp >= self.xp_to_next_level: self.level_up()` loop of
`Profile.add_xp` (models.py lines 61-62).  The conjunct `1 ≤ xp_to_next_level`
delimits the domain on which the Python loop terminates: when the threshold is
nonpositive and ever reached, the source loop runs forever (see claim C10), so
the embedding stops there instead; every claim stays inside `1 ≤` thresholds,
where the two agree. -/
def add_xp_loop (p : Profile) : Profile :=
  if h : 1 ≤ p.xp_to_next_level ∧ p.xp_to_next_level ≤ p.total_xp then
    add_xp_loop (level_up p)
  else
    p
termination_by p.total_xp.toNat
decreasing_by
  simp only [level_up]
  omega

/-- `Profile.add_xp` (models.py lines 58-63): add the amount, run the level-up
cascade, then `save()` (a no-op in the pure model). -/
def add_xp (p : Profile) (amount : Int) : Profile :=
  add_xp_loop { p with total_xp := p.total_xp + amount }

/-- One unfolding of the loop, for calculational proofs. -/
theorem add_xp_loop_eq (p : Profile) :
    add_xp_loop p =
      if 1 ≤ p.xp_to_next_level ∧ p.xp_to_next_level ≤ p.total_xp then
        add_xp_loop (level_up p)
      else p := by
  rw [add_xp_loop]
  split <;> simp_all

/-- Master invariant lemma for the cascade, by strong induction on the fuel
bound `total_xp.toNat`: starting from a positive threshold, the loop ends
below the threshold, never decreases level or threshold, and is a finite
iterate of `level_up`. -/
theorem add_xp_loop_spec (n : Nat) :
    ∀ p : Profile, p.total_xp.toNat ≤ n → 1 ≤ p.xp_to_next_level →
      (add_xp_loop p).total_xp < (add_xp_loop p).xp_to_next_level ∧
      p.level ≤ (add_xp_loop p).level ∧
      p.xp_to_next_level ≤ (add_xp_loop p).xp_to_next_level ∧
      ∃ k : Nat, add_xp_loop p = level_up^[k] p := by
  induction n with
  | zero =>
    intro p hfuel hthr
    have hcond : ¬ (1 ≤ p.xp_to_next_level ∧ p.xp_to_next_level ≤ p.total_xp) := by
      omega
    rw [add_xp_loop_eq, if_neg hcond]
    exact ⟨by omega, le_refl _, le_refl _, 0, by simp⟩
  | succ m ih =>
    intro p hfuel hthr
    by_cases hcond : 1 ≤ p.xp_to_next_level ∧ p.xp_to_next_level ≤ p.total_xp
    · rw [add_xp_loop_eq, if_pos hcond]
      have hthr2 : 1 ≤ (level_up p).xp_to_next_level := by
        simp only [level_up, growth]
        omega
      have hfuel2 : (level_up p).total_xp.toNat ≤ m := by
        simp only [level_up]
        omega
      obtain ⟨h1, h2, h3, k, hk⟩ := ih (level_up p) hfuel2 hthr2
      refine ⟨h1, ?_, ?_, k + 1, ?_⟩
      · have : p.level ≤ (level_up p).level := by simp only [level_up]; omega
        omega
      · have : p.xp_to_next_level ≤ (level_up p).xp_to_next_level := by
          simp only [level_up, growth]; omega
        omega
      · rw [hk, Function.iterate_succ_apply]
    · rw [add_xp_loop_eq, if_neg hcond]
      exact ⟨by omega, le_refl _, le_refl _, 0, by simp⟩

/-- Claim C1: for every character state with `xp_to_next_level ≥ 1` and
`total_xp ≥ 0`, and every nonnegative amount, after `Profile.add_xp` the
invariant `total_xp < xp_to_next_level` holds and the level did not
decrease. -/
theorem add_xp_invariant (p : Profile) (amount : Int)
    (hthr : 1 ≤ p.xp_to_next_level) (hxp : 0 ≤ p.total_xp) (ha : 0 ≤ amount) :
    (add_xp p amount).total_xp < (add_xp p amount).xp_to_next_level ∧
    p.level ≤ (add_xp p amount).level := by
  have h := add_xp_loop_spec ({ p with total_xp := p.total_xp + amount }).total_xp.toNat
    { p with total_xp := p.total_xp + amount } (le_refl _) hthr
  exact ⟨h.1, h.2.1⟩

/-- Witness for C1 at a concrete state: the default new character granted
12345 XP. -/
theorem add_xp_invariant_witness :
    (add_xp ⟨1, 10, 10, 10, 10, 10, 0, 10000⟩ 12345).total_xp <
      (add_xp ⟨1, 10, 10, 10, 10, 10, 0, 10000⟩ 12345).xp_to_next_level ∧
    (1 : Int) ≤ (add_xp ⟨1, 10, 10, 10, 10, 10, 0, 10000⟩ 12345).level :=
  add_xp_invariant ⟨1, 10, 10, 10, 10, 10, 0, 10000⟩ 12345
    (by decide) (by decide) (by decide)

/-- Claim C2: granting 25000 XP to a level-1 character with `total_xp = 0` and
`xp_to_next_level = 10000` yields exactly level 3, `total_xp = 3000`,
`xp_to_next_level = 14400` (10000 → 12000 → 14400 by truncated 1.2 growth),
and every one of the five stats raised by exactly 2. -/
theorem add_xp_example (p : Profile) (hl : p.level = 1) (hx : p.total_xp = 0)
    (ht : p.xp_to_next_level = 10000) :
    add_xp p 25000 =
      { p with
        level := 3
        total_xp := 3000
        xp_to_next_level := 14400
        strength := p.strength + 2
        intelligence := p.intelligence + 2
        charisma := p.charisma + 2
        endurance := p.endurance + 2
        luck := p.luck + 2 } := by
  obtain ⟨l, s, i, c, e, lk, tx, thr⟩ := p
  dsimp only at hl hx ht ⊢
  subst hl; subst hx; subst ht
  unfold add_xp
  rw [add_xp_loop_eq]
  norm_num [level_up, growth]
  rw [add_xp_loop_eq]
  norm_num [level_up, growth]
  rw [add_xp_loop_eq]
  norm_num
  omega

/-- Witness for C2 at the concrete default-stat character. -/
theorem add_xp_example_witness :
    add_xp ⟨1, 10, 10, 10, 10, 10, 0, 10000⟩ 25000 =
      ⟨3, 12, 12, 12, 12, 12, 3000, 14400⟩ :=
  add_xp_example ⟨1, 10, 10, 10, 10, 10, 0, 10000⟩ rfl rfl rfl

/-- Claim C10: on the claimed domain the cascade terminates: every iteration
strictly decreases `total_xp` by the current positive threshold while the
threshold `int(x * 1.2)` never decreases, and the whole of `add_xp` is a
finite iterate of `level_up` after the initial addition. -/
theorem add_xp_terminates (p : Profile) (amount : Int)
    (hthr : 1 ≤ p.xp_to_next_level) (hxp : 0 ≤ p.total_xp) (ha : 0 ≤ amount) :
    (∀ q : Profile, 1 ≤ q.xp_to_next_level → q.xp_to_next_level ≤ q.total_xp →
        (level_up q).total_xp < q.total_xp ∧
        q.xp_to_next_level ≤ (level_up q).xp_to_next_level) ∧
    ∃ k : Nat,
      add_xp p amount = level_up^[k] { p with total_xp := p.total_xp + amount } := by
  constructor
  · intro q hq1 hq2
    constructor
    · simp only [level_up]
      omega
    · simp only [level_up, growth]
      omega
  · have h := add_xp_loop_spec ({ p with total_xp := p.total_xp + amount }).total_xp.toNat
      { p with total_xp := p.total_xp + amount } (le_refl _) hthr
    exact h.2.2.2

/-- Witness for C10 at the default new character granted 25000 XP. -/
theorem add_xp_terminates_witness :
    (∀ q : Profile, 1 ≤ q.xp_to_next_level → q.xp_to_next_level ≤ q.total_xp →
        (level_up q).total_xp < q.total_xp ∧
        q.xp_to_next_level ≤ (level_up q).xp_to_next_level) ∧
    ∃ k : Nat,
      add_xp ⟨1, 10, 10, 10, 10, 10, 0, 10000⟩ 25000 =
        level_up^[k] ⟨1, 10, 10, 10, 10, 10, 0 + 25000, 10000⟩ :=
  add_xp_terminates ⟨1, 10, 10, 10, 10, 10, 0, 10000⟩ 25000
    (by decide) (by decide) (by decide)

/-- Python `x or 0` applied to an integer field value: on the integers this is
the identity (`0 or 0` is `0`; any other int is truthy), written out so the
null-guard in `Quest.complete_quest` (models.py lines 133, 137-141) is
modelled literally. -/
def pyOr0 (x : Int) : Int := if x = 0 then 0 else x

/-- The `Quest` Django model (models.py, class Quest): the fields the verified
operations read or write.  `completed_at` and `due_date` are day/instant
timestamps in the integer clock model; `profile` is passed explicitly. -/
structure Quest where
  title : String
  description : String
  quest_type : String
  difficulty : String
  reward_xp : Int
  reward_strength : Int
  reward_intelligence : Int
  reward_charisma : Int
  reward_endurance : Int
  reward_luck : Int
  completed : Bool
  completed_at : Option Int
  due_date : Option Int
  generated_by_ai : Bool
deriving DecidableEq

/-- `Quest.complete_quest` (models.py lines 126-146), with the owning profile
and the clock passed explicitly: if not yet completed, mark completed at now,
route the XP reward through `add_xp`, flat-add the five stat rewards, and
report `true`; otherwise report `false` and change nothing. -/
def complete_quest (q : Quest) (p : Profile) (now : Int) : Bool × Quest × Profile :=
  if ¬ q.completed then
    let q2 := { q with completed := true, completed_at := some now }
    let p1 := add_xp p (pyOr0 q.reward_xp)
    let p2 := { p1 with
      strength := p1.strength + pyOr0 q.reward_strength
      intelligence := p1.intelligence + pyOr0 q.reward_intelligence
      charisma := p1.charisma + pyOr0 q.reward_charisma
      endurance := p1.endurance + pyOr0 q.reward_endurance
      luck := p1.luck + pyOr0 q.reward_luck }
    (true, q2, p2)
  else
    (false, q, p)

/-- Claim C3: completing an already-completed quest returns `false` and leaves
the quest and the owning character entirely unchanged; in particular a second
call after a first successful completion is a no-op returning `false`. -/
theorem complete_quest_already_completed (q : Quest) (p : Profile) (now now2 : Int) :
    (q.completed = true → complete_quest q p now = (false, q, p)) ∧
    (q.completed = false →
      (complete_quest q p now).1 = true ∧
      complete_quest (complete_quest q p now).2.1 (complete_quest q p now).2.2 now2 =
        (false, (complete_quest q p now).2.1, (complete_quest q p now).2.2)) := by
  constructor
  · intro hc
    simp [complete_quest, hc]
  · intro hc
    simp [complete_quest, hc]

/-- Witness for C3: a concrete already-completed quest is left untouched, and
a fresh one completes once then refuses. -/
theorem complete_quest_already_completed_witness :
    (complete_quest ⟨"t", "d", "daily", "easy", 10, 0, 0, 0, 0, 0, true, some 5, none, true⟩
        ⟨1, 10, 10, 10, 10, 10, 0, 10000⟩ 7 =
      (false, ⟨"t", "d", "daily", "easy", 10, 0, 0, 0, 0, 0, true, some 5, none, true⟩,
        ⟨1, 10, 10, 10, 10, 10, 0, 10000⟩)) ∧
    (complete_quest ⟨"t", "d", "daily", "easy", 10, 0, 0, 0, 0, 0, false, none, none, true⟩
        ⟨1, 10, 10, 10, 10, 10, 0, 10000⟩ 7).1 = true :=
  ⟨(complete_quest_already_completed _ _ 7 7).1 rfl,
   ((complete_quest_already_completed _ _ 7 7).2 rfl).1⟩

/-- A timezone-aware Python datetime, at the granularity the habit logic
needs: a calendar-day ordinal (what `.date()` projects to, with date
subtraction giving the difference of ordinals in days) plus a time of day. -/
structure PyDateTime where
  day : Int
  tod : Nat
deriving DecidableEq

/-- `datetime.date()` at day-ordinal granularity. -/
def pydate (t : PyDateTime) : Int := t.day

/-- The `Habit` Django model (models.py, class Habit): tracked fields. -/
structure Habit where
  name : String
  frequency : String
  active : Bool
  streak_count : Int
  total_completions : Int
  last_completed : Option PyDateTime
  created_from_chat : Bool
  ai_suggested : Bool
deriving DecidableEq

/-- `Habit.complete_today` (models.py lines 181-196) with the clock passed
explicitly.  `self.last_completed and ...` is the truthiness guard on the
nullable field (a datetime object itself is always truthy). -/
def complete_today (h : Habit) (now : PyDateTime) : Bool × Habit :=
  if (h.last_completed.any fun lc => pydate lc == pydate now) then
    (false, h)
  else
    let streak :=
      if (h.last_completed.any fun lc => pydate now - pydate lc == 1) then
        h.streak_count + 1
      else 1
    (true, { h with
      streak_count := streak
      last_completed := some now
      total_completions := h.total_completions + 1 })

/-- Claim C4: `complete_today` (1) returns `false` with no change when
`last_completed` falls on the same calendar date as now; (2) on success sets
the streak to `streak + 1` exactly when the last completion was one calendar
day before today and to 1 otherwise (including the never-completed case); and
(3) on every success bumps `total_completions` by one and stamps
`last_completed := now`. -/
theorem complete_today_spec (h : Habit) (now : PyDateTime) :
    (∀ lc, h.last_completed = some lc → pydate lc = pydate now →
        complete_today h now = (false, h)) ∧
    (h.last_completed = none →
        complete_today h now = (true, { h with
          streak_count := 1
          last_completed := some now
          total_completions := h.total_completions + 1 })) ∧
    (∀ lc, h.last_completed = some lc → pydate lc ≠ pydate now →
        complete_today h now = (true, { h with
          streak_count :=
            if pydate now - pydate lc = 1 then h.streak_count + 1 else 1
          last_completed := some now
          total_completions := h.total_completions + 1 })) := by
  refine ⟨?_, ?_, ?_⟩
  · intro lc hlc hsame
    simp [complete_today, hlc, hsame]
  · intro hnone
    simp [complete_today, hnone]
  · intro lc hlc hdiff
    have hsame : (pydate lc == pydate now) = false := by
      simp [hdiff]
    by_cases hstep : pydate now - pydate lc = 1
    · simp [complete_today, hlc, hsame, hstep]
    · simp [complete_today, hlc, hsame, hstep]

/-- Witness for C4: completing on the exactly-next calendar day bumps a streak
of 4 to 5, stamps now, and bumps the completion count. -/
theorem complete_today_spec_witness :
    complete_today ⟨"read", "daily", true, 4, 9, some ⟨100, 0⟩, false, false⟩ ⟨101, 3600⟩ =
      (true, ⟨"read", "daily", true, 5, 10, some ⟨101, 3600⟩, false, false⟩) := by
  have h := (complete_today_spec
    ⟨"read", "daily", true, 4, 9, some ⟨100, 0⟩, false, false⟩ ⟨101, 3600⟩).2.2
    ⟨100, 0⟩ rfl (by decide)
  simpa using h

/-- The `StatusEffect` Django model (models.py, class StatusEffect): the
fields the expiry lifecycle reads, on the integer-seconds clock. -/
structure StatusEffect where
  name : String
  description : String
  effect_type : String
  duration_hours : Int
  expires_at : Option Int
  active : Bool
deriving DecidableEq

/-- `timezone.timedelta(hours := h)` on the integer-seconds clock. -/
def hoursDelta (h : Int) : Int := 3600 * h

/-- `StatusEffect.save` (models.py lines 286-289) with the clock passed
explicitly: when `expires_at` is not set (None is falsy; a datetime is always
truthy), fix it to now plus the duration; then persist (a no-op here). -/
def statusEffect_save (e : StatusEffect) (now : Int) : StatusEffect :=
  match e.expires_at with
  | none => { e with expires_at := some (now + hoursDelta e.duration_hours) }
  | some _ => e

/-- The `is_expired` property (models.py lines 294-296): `now > expires_at`,
read against the injected clock.  Reading it on an unsaved effect with
`expires_at` still None raises in Python; the model is only applied to saved
effects, as in the claim. -/
def is_expired (e : StatusEffect) (now : Int) : Bool :=
  match e.expires_at with
  | some t => decide (t < now)
  | none => false

/-- Claim C9: a `StatusEffect` saved with `duration_hours = 1` and no explicit
`expires_at` has its expiry fixed at creation time to now plus one hour, is
not expired when read at creation time, and is expired at any read more than
one hour after creation. -/
theorem status_effect_expiry (e : StatusEffect) (now tread : Int)
    (hdur : e.duration_hours = 1) (hexp : e.expires_at = none) :
    (statusEffect_save e now).expires_at = some (now + hoursDelta 1) ∧
    is_expired (statusEffect_save e now) now = false ∧
    (now + hoursDelta 1 < tread → is_expired (statusEffect_save e now) tread = true) := by
  refine ⟨?_, ?_, ?_⟩
  · simp [statusEffect_save, hexp, hdur]
  · simp [statusEffect_save, is_expired, hexp, hdur, hoursDelta]
  · intro hlate
    simp [statusEffect_save, is_expired, hexp, hdur, hoursDelta] at hlate ⊢
    omega

/-- Witness for C9 at a concrete effect created at time 0 and read at times 0
and 3601. -/
theorem status_effect_expiry_witness :
    (statusEffect_save ⟨"focus", "d", "buff", 1, none, true⟩ 0).expires_at =
      some (0 + hoursDelta 1) ∧
    is_expired (statusEffect_save ⟨"focus", "d", "buff", 1, none, true⟩ 0) 0 = false ∧
    is_expired (statusEffect_save ⟨"focus", "d", "buff", 1, none, true⟩ 0) 3601 = true := by
  have h := status_effect_expiry ⟨"focus", "d", "buff", 1, none, true⟩ 0 3601 rfl rfl
  exact ⟨h.1, h.2.1, h.2.2 (by decide)⟩

/-!
Embedding of src/core/utils.py.  The regex patterns of `parse_ai_action` are
compiled by hand into scanners over `List Char`; each scanner is annotated
with the pattern it implements.  Text is modelled at ASCII granularity
(`lower()`, `\s`, `\d`, `title()` behave as in Python on ASCII; the inputs in
the claims are ASCII).
-/

/-- `str.lower()` of the AI reply, as the character list the scanners run
over. -/
def pyLower (s : String) : List Char := s.toList.map Char.toLower

/-- Python regex `\s` (ASCII): space, tab, newline, carriage return, vertical
tab, form feed. -/
def pyIsSpace (c : Char) : Bool :=
  c = ' ' || c = '\t' || c = '\n' || c = '\r' || c = '\x0b' || c = '\x0c'

/-- Greedy `\d+` starting at the head: the integer value of the maximal digit
run (this is the `int(match.group(1))` conversion) and the rest.  `none` when
the head is not a digit. -/
def takeDigitsAux : List Char → Nat → Bool → Option (Nat × List Char)
  | [], acc, seen => if seen then some (acc, []) else none
  | c :: cs, acc, seen =>
    if c.isDigit then takeDigitsAux cs (10 * acc + (c.toNat - 48)) true
    else if seen then some (acc, c :: cs) else none

/-- Greedy `\s+` at the head: at least one whitespace character, maximal
run. -/
def takeSpaces1 : List Char → Option (List Char)
  | [] => none
  | c :: cs => if pyIsSpace c then some (cs.dropWhile pyIsSpace) else none

/-- Anchored match of `\+(\d+)\s+(?:w₁|w₂|...)` at the head of the input: a
literal plus, the captured digits, at least one whitespace, then one of the
literal alternatives (no trailing word boundary, exactly as in the source
patterns).  Greedy `\d+`/`\s+` cannot backtrack usefully here because the
alternatives start with letters, so maximal runs are faithful. -/
def matchPlusNumAt (words : List (List Char)) (cs : List Char) : Option Nat :=
  match cs with
  | '+' :: rest =>
    match takeDigitsAux rest 0 false with
    | some (n, r1) =>
      match takeSpaces1 r1 with
      | some r2 => if words.any (fun w => w.isPrefixOf r2) then some n else none
      | none => none
    | none => none
  | _ => none

/-- `re.search`: try the anchored matcher at every position, leftmost success
wins. -/
def regexSearch (m : List Char → Option α) : List Char → Option α
  | [] => m []
  | c :: cs =>
    match m (c :: cs) with
    | some r => some r
    | none => regexSearch m cs

/-- `re.search(r'\+(\d+)\s+word', text)` returning the captured integer. -/
def searchPlusNum (words : List (List Char)) (cs : List Char) : Option Nat :=
  regexSearch (matchPlusNumAt words) cs

/-- Anchored match of the common tail `[":]\s*"([^"]+)"`: a quote or colon,
optional whitespace, then a quoted nonempty capture. -/
def matchColonQuoted : List Char → Option (List Char)
  | [] => none
  | c :: cs =>
    if c = '"' || c = ':' then
      match cs.dropWhile pyIsSpace with
      | '"' :: r2 =>
        let cap := r2.takeWhile (fun d => d != '"')
        match r2.dropWhile (fun d => d != '"') with
        | '"' :: _ => if cap.isEmpty then none else some cap
        | _ => none
      | _ => none
    else none

/-- Lazy `.*?T`: try the tail matcher at the current offset first, then skip
one character at a time; `.` does not match a newline, so the scan cannot
consume past one (though the tail may still be tried at the newline
itself). -/
def lazyFind (t : List Char → Option α) : List Char → Option α
  | [] => t []
  | c :: cs =>
    match t (c :: cs) with
    | some r => some r
    | none => if c = '\n' then none else lazyFind t cs

/-- Anchored `head.*?tail` at the current position. -/
def matchHeadLazy (head : List Char) (t : List Char → Option α) (cs : List Char) :
    Option α :=
  if head.isPrefixOf cs then lazyFind t (cs.drop head.length) else none

/-- Anchored match of `called\s+"([^"]+)"` (tail of habit pattern 2). -/
def matchCalledQuoted (cs : List Char) : Option (List Char) :=
  if ['c', 'a', 'l', 'l', 'e', 'd'].isPrefixOf cs then
    match takeSpaces1 (cs.drop 6) with
    | some r1 =>
      match r1 with
      | '"' :: r2 =>
        let cap := r2.takeWhile (fun d => d != '"')
        match r2.dropWhile (fun d => d != '"') with
        | '"' :: _ => if cap.isEmpty then none else some cap
        | _ => none
      | _ => none
    | none => none
  else none

/-- Anchored match of habit pattern 3, `mark\s+"([^"]+)"\s+in.*?quest`. -/
def matchMarkQuoted (cs : List Char) : Option (List Char) :=
  if ['m', 'a', 'r', 'k'].isPrefixOf cs then
    match takeSpaces1 (cs.drop 4) with
    | some r1 =>
      match r1 with
      | '"' :: r2 =>
        let cap := r2.takeWhile (fun d => d != '"')
        match r2.dropWhile (fun d => d != '"') with
        | '"' :: r3 =>
          match takeSpaces1 r3 with
          | some r4 =>
            if ['i', 'n'].isPrefixOf r4 then
              if cap.isEmpty then none
              else
                match lazyFind
                  (fun cs2 =>
                    if ['q', 'u', 'e', 's', 't'].isPrefixOf cs2 then some () else none)
                  (r4.drop 2) with
                | some _ => some cap
                | none => none
            else none
          | none => none
        | _ => none
      | _ => none
    | none => none
  else none

/-- Habit pattern 1: `habit.*?[":]\s*"([^"]+)"`. -/
def habitPattern1 (cs : List Char) : Option (List Char) :=
  regexSearch (matchHeadLazy ['h', 'a', 'b', 'i', 't'] matchColonQuoted) cs

/-- Habit pattern 2: `habit.*?called\s+"([^"]+)"`. -/
def habitPattern2 (cs : List Char) : Option (List Char) :=
  regexSearch (matchHeadLazy ['h', 'a', 'b', 'i', 't'] matchCalledQuoted) cs

/-- Habit pattern 3: `mark\s+"([^"]+)"\s+in.*?quest`. -/
def habitPattern3 (cs : List Char) : Option (List Char) :=
  regexSearch matchMarkQuoted cs

/-- Habit pattern 4: `add.*?habit.*?[":]\s*"([^"]+)"`; nested lazy scans
reproduce the backtracking order (earliest `habit` whose own tail succeeds
wins). -/
def habitPattern4 (cs : List Char) : Option (List Char) :=
  regexSearch
    (matchHeadLazy ['a', 'd', 'd']
      (matchHeadLazy ['h', 'a', 'b', 'i', 't'] matchColonQuoted)) cs

/-- The habit-creation scan (utils.py lines 94-115): ordered list of regex
alternatives, first pattern that matches anywhere wins, returning the
capture. -/
def findHabitName (cs : List Char) : Option (List Char) :=
  match habitPattern1 cs with
  | some cap => some cap
  | none =>
    match habitPattern2 cs with
    | some cap => some cap
    | none =>
      match habitPattern3 cs with
      | some cap => some cap
      | none => habitPattern4 cs

/-- The quest-creation scan (utils.py lines 118-140):
`quest.*?[":]\s*"([^"]+)"` then `challenge.*?[":]\s*"([^"]+)"`. -/
def findQuestTitle (cs : List Char) : Option (List Char) :=
  match regexSearch (matchHeadLazy ['q', 'u', 'e', 's', 't'] matchColonQuoted) cs with
  | some cap => some cap
  | none =>
    regexSearch
      (matchHeadLazy ['c', 'h', 'a', 'l', 'l', 'e', 'n', 'g', 'e'] matchColonQuoted) cs

/-- Python `str.title()` on ASCII: a letter starts uppercased when the
previous character is not a letter, and is lowercased otherwise. -/
def pyTitleAux : List Char → Bool → List Char
  | [], _ => []
  | c :: cs, prevAlpha =>
    if c.isAlpha then
      (if prevAlpha then c.toLower else c.toUpper) :: pyTitleAux cs true
    else c :: pyTitleAux cs false

/-- `match.group(1).title()` as a string. -/
def pyTitle (cs : List Char) : String := String.mk (pyTitleAux cs false)

/-- Parsed JSON values as produced by `json.loads`.  Numbers carry their
truncated-toward-zero integer value plus a flag recording whether a fraction
was present (Python keeps the float; the only numeric consumer under
verification is Django integer-field coercion `int(value)`, which is exactly
the truncation).  `jnan` stands for the non-finite literals NaN and
±Infinity, which Python json accepts and `int()` then rejects. -/
inductive Json where
  | jnull : Json
  | jbool : Bool → Json
  | jnum : Int → Bool → Json
  | jstr : String → Json
  | jarr : List Json → Json
  | jobj : List (String × Json) → Json
  | jnan : Json

/-- JSON whitespace as skipped by Python json: space, tab, newline, carriage
return. -/
def jsonWs (c : Char) : Bool := c = ' ' || c = '\t' || c = '\n' || c = '\r'

/-- Hex digit value (helper for the `\uXXXX` string escape). -/
def hexVal (c : Char) : Nat :=
  if c.isDigit then c.toNat - 48
  else if 'a' ≤ c && c ≤ 'f' then c.toNat - 87
  else if 'A' ≤ c && c ≤ 'F' then c.toNat - 55
  else 0

/-- Hex digit test (helper for the `\uXXXX` string escape). -/
def isHex (c : Char) : Bool :=
  c.isDigit || ('a' ≤ c && c ≤ 'f') || ('A' ≤ c && c ≤ 'F')

/-- String-literal body parser: standard single-character escapes and
`\uXXXX`; an invalid escape makes the whole parse fail, as in Python.
Surrogate pairs are not recombined (no claim exercises them). -/
def parseJsonStr : Nat → List Char → List Char → Option (String × List Char)
  | 0, _, _ => none
  | _ + 1, [], _ => none
  | _ + 1, '"' :: r, acc => some (String.mk acc.reverse, r)
  | fuel + 1, '\\' :: e :: r, acc =>
    match e with
    | 'n' => parseJsonStr fuel r ('\n' :: acc)
    | 't' => parseJsonStr fuel r ('\t' :: acc)
    | 'r' => parseJsonStr fuel r ('\r' :: acc)
    | 'b' => parseJsonStr fuel r ('\x08' :: acc)
    | 'f' => parseJsonStr fuel r ('\x0c' :: acc)
    | '/' => parseJsonStr fuel r ('/' :: acc)
    | '\\' => parseJsonStr fuel r ('\\' :: acc)
    | '"' => parseJsonStr fuel r ('"' :: acc)
    | 'u' =>
      match r with
      | h1 :: h2 :: h3 :: h4 :: r2 =>
        if isHex h1 && isHex h2 && isHex h3 && isHex h4 then
          let v := 4096 * hexVal h1 + 256 * hexVal h2 + 16 * hexVal h3 + hexVal h4
          parseJsonStr fuel r2 (Char.ofNat v :: acc)
        else none
      | _ => none
    | _ => none
  | fuel + 1, c :: r, acc =>
    if c.toNat < 32 then none else parseJsonStr fuel r (c :: acc)

/-- Number parser after the optional minus sign has been consumed: `\d+`
(without a redundant leading zero) and an optional `.\d+` fraction whose
digits only set the float flag (truncation toward zero drops them).
Exponents are not modelled (no claim exercises them; Python would accept
them). -/
def parseJsonNum (neg : Bool) (cs : List Char) : Option (Json × List Char) :=
  match takeDigitsAux cs 0 false with
  | none => none
  | some (n, r1) =>
    let intDigits := cs.take (cs.length - r1.length)
    if 1 < intDigits.length && intDigits.headD '0' = '0' then none
    else
      let v : Int := if neg then -(n : Int) else (n : Int)
      match r1 with
      | '.' :: r2 =>
        match takeDigitsAux r2 0 false with
        | some (_, r3) => some (.jnum v true, r3)
        | none => none
      | _ => some (.jnum v false, r1)

mutual

/-- Recursive-descent value parser for the `json.loads` model, fuelled; the
top-level entry supplies fuel well above the call depth (each nesting level
consumes input). -/
def parseJsonVal : Nat → List Char → Option (Json × List Char)
  | 0, _ => none
  | fuel + 1, cs =>
    match cs.dropWhile jsonWs with
    | 'n' :: 'u' :: 'l' :: 'l' :: r => some (.jnull, r)
    | 't' :: 'r' :: 'u' :: 'e' :: r => some (.jbool true, r)
    | 'f' :: 'a' :: 'l' :: 's' :: 'e' :: r => some (.jbool false, r)
    | 'N' :: 'a' :: 'N' :: r => some (.jnan, r)
    | 'I' :: 'n' :: 'f' :: 'i' :: 'n' :: 'i' :: 't' :: 'y' :: r => some (.jnan, r)
    | '"' :: r =>
      match parseJsonStr fuel r [] with
      | some (s, r2) => some (.jstr s, r2)
      | none => none
    | '[' :: r =>
      (match r.dropWhile jsonWs with
       | ']' :: r2 => some (.jarr [], r2)
       | _ =>
         match parseJsonArrElems fuel r [] with
         | some (xs, r2) => some (.jarr xs, r2)
         | none => none)
    | '{' :: r =>
      (match r.dropWhile jsonWs with
       | '}' :: r2 => some (.jobj [], r2)
       | _ =>
         match parseJsonObjElems fuel r [] with
         | some (kvs, r2) => some (.jobj kvs, r2)
         | none => none)
    | '-' :: 'I' :: 'n' :: 'f' :: 'i' :: 'n' :: 'i' :: 't' :: 'y' :: r => some (.jnan, r)
    | '-' :: r => parseJsonNum true r
    | c :: r => if c.isDigit then parseJsonNum false (c :: r) else none
    | [] => none

/-- Comma-separated array elements followed by a closing bracket. -/
def parseJsonArrElems : Nat → List Char → List Json → Option (List Json × List Char)
  | 0, _, _ => none
  | fuel + 1, cs, acc =>
    match parseJsonVal fuel cs with
    | none => none
    | some (v, r1) =>
      match r1.dropWhile jsonWs with
      | ',' :: r2 => parseJsonArrElems fuel r2 (v :: acc)
      | ']' :: r2 => some ((v :: acc).reverse, r2)
      | _ => none

/-- Comma-separated `"key": value` pairs followed by a closing brace. -/
def parseJsonObjElems : Nat → List Char → List (String × Json) →
    Option (List (String × Json) × List Char)
  | 0, _, _ => none
  | fuel + 1, cs, acc =>
    match cs.dropWhile jsonWs with
    | '"' :: r =>
      match parseJsonStr fuel r [] with
      | none => none
      | some (k, r1) =>
        match r1.dropWhile jsonWs with
        | ':' :: r2 =>
          match parseJsonVal fuel r2 with
          | none => none
          | some (v, r3) =>
            match r3.dropWhile jsonWs with
            | ',' :: r4 => parseJsonObjElems fuel r4 ((k, v) :: acc)
            | '}' :: r4 => some (((k, v) :: acc).reverse, r4)
            | _ => none
        | _ => none
    | _ => none

end

/-- `json.loads` model: parse one value and require only whitespace to
remain, else fail (Python raises).  The fuel bound dominates the parser call
depth because every two nested calls consume at least one character. -/
def json_loads (s : String) : Option Json :=
  match parseJsonVal (4 * s.length + 16) s.toList with
  | some (v, rest) => if (rest.dropWhile jsonWs).isEmpty then some v else none
  | none => none

/-- `re.search(r'\x7b[^\x7d]*\x7d', text)` (utils.py line 55): the leftmost
opening brace that has a closing brace after it, matched up to the first such
closing brace; returns the full matched substring. -/
def braceSearch : List Char → Option (List Char)
  | [] => none
  | '{' :: cs =>
    (match cs.dropWhile (fun c => c != '}') with
     | '}' :: _ => some ('{' :: cs.takeWhile (fun c => c != '}') ++ ['}'])
     | _ => braceSearch cs)
  | _ :: cs => braceSearch cs

/-- `re.search(r'\[.*\]', text, re.DOTALL)` (utils.py line 234): greedy with
DOTALL, so the leftmost opening bracket matched through the last closing
bracket anywhere after it; returns the full matched substring. -/
def bracketSearch : List Char → Option (List Char)
  | [] => none
  | '[' :: cs =>
    (match cs.reverse.dropWhile (fun c => c != ']') with
     | [] => none
     | r => some ('[' :: r.reverse))
  | _ :: cs => bracketSearch cs

/-- Python truthiness of a parsed JSON value (used by the
`action_data.get(...)` guards): None, False, 0, empty string/array/object are
falsy; NaN and Infinity are truthy. -/
def jsonTruthy : Json → Bool
  | .jnull => false
  | .jbool b => b
  | .jnum n f => !(n = 0 && f = false) || (n != 0)
  | .jstr s => !s.isEmpty
  | .jarr xs => !xs.isEmpty
  | .jobj kvs => !kvs.isEmpty
  | .jnan => true

/-- Python `int(str)` as applied by Django integer-field coercion to string
values: optional surrounding whitespace, optional sign, at least one digit
(underscore separators are not modelled; no claim exercises them). -/
def pyIntOfString (s : String) : Option Int :=
  match (s.toList.dropWhile pyIsSpace).reverse.dropWhile pyIsSpace |>.reverse with
  | '-' :: ds =>
    if ds ≠ [] && ds.all Char.isDigit then
      some (-(ds.foldl (fun acc c => 10 * acc + (c.toNat - 48)) 0 : Nat))
    else none
  | '+' :: ds =>
    if ds ≠ [] && ds.all Char.isDigit then
      some ((ds.foldl (fun acc c => 10 * acc + (c.toNat - 48)) 0 : Nat))
    else none
  | ds =>
    if ds ≠ [] && ds.all Char.isDigit then
      some ((ds.foldl (fun acc c => 10 * acc + (c.toNat - 48)) 0 : Nat))
    else none

/-- Django `IntegerField` value coercion at `Quest.objects.create` /
`save()`: `int(value)` truncates numbers toward zero (already done at parse
time), maps booleans to 0/1, parses integral strings; None violates the NOT
NULL constraint at insert and everything else raises TypeError/ValueError —
both modelled as the creation failing. -/
def intFieldPrep : Json → Except Unit Int
  | .jnum n _ => .ok n
  | .jbool b => .ok (if b then 1 else 0)
  | .jstr s =>
    match pyIntOfString s with
    | some n => .ok n
    | none => .error ()
  | _ => .error ()

/-- Django CharField/TextField coercion `str(value)` for the title,
description and difficulty fields.  For composite values Python would store
their repr; it is modelled as a placeholder since no claim reads the text of
a non-string title. -/
def strFieldPrep : Json → String
  | .jstr s => s
  | .jnum n _ => toString n
  | .jbool b => if b then "True" else "False"
  | .jnull => "None"
  | .jnan => "nan"
  | .jarr _ => "<list>"
  | .jobj _ => "<dict>"

/-- Lookup in a parsed JSON object: Python dict construction keeps the last
duplicate key. -/
def jsonGet (kvs : List (String × Json)) (k : String) : Option Json :=
  (kvs.filter (fun kv => kv.1 == k)).getLast? |>.map (fun kv => kv.2)

/-- One round of the quest-creation loop of `generate_daily_quests`
(utils.py lines 243-259): `quest_data.get(key, default)` for each field, then
`Quest.objects.create(...)` with field coercion; a non-dict element (whose
`.get` raises AttributeError) or a value integer coercion rejects makes the
call raise, which the surrounding `except` turns into the fallback path.
`now_day` is the calendar day of `timezone.now()`; `generated_by_ai` is
hard-coded true on this path. -/
def createQuestFromData (now_day : Int) (quest_data : Json) : Except Unit Quest :=
  match quest_data with
  | .jobj kvs => do
    let xp ← intFieldPrep ((jsonGet kvs "reward_xp").getD (.jnum 15 false))
    let st ← intFieldPrep ((jsonGet kvs "reward_strength").getD (.jnum 0 false))
    let iq ← intFieldPrep ((jsonGet kvs "reward_intelligence").getD (.jnum 0 false))
    let ch ← intFieldPrep ((jsonGet kvs "reward_charisma").getD (.jnum 0 false))
    let en ← intFieldPrep ((jsonGet kvs "reward_endurance").getD (.jnum 0 false))
    let lu ← intFieldPrep ((jsonGet kvs "reward_luck").getD (.jnum 0 false))
    Except.ok
      { title := strFieldPrep ((jsonGet kvs "title").getD (.jstr "Daily Challenge"))
        description := strFieldPrep ((jsonGet kvs "description").getD
          (.jstr "Complete this challenge to grow stronger."))
        quest_type := "daily"
        difficulty := strFieldPrep ((jsonGet kvs "difficulty").getD (.jstr "medium"))
        reward_xp := xp
        reward_strength := st
        reward_intelligence := iq
        reward_charisma := ch
        reward_endurance := en
        reward_luck := lu
        completed := false
        completed_at := none
        due_date := some (now_day + 1)
        generated_by_ai := true }
  | _ => Except.error ()

/-- The static fallback table of `generate_fallback_quests` (utils.py lines
270-312), as the JSON dictionaries the source declares (note which reward
keys each dictionary omits). -/
def fallbackQuestsData : List Json :=
  [ .jobj [("title", .jstr "Knowledge Seeker"),
      ("description", .jstr "Read for 30 minutes or learn something new today."),
      ("difficulty", .jstr "easy"), ("reward_xp", .jnum 15 false),
      ("reward_intelligence", .jnum 2 false), ("reward_endurance", .jnum 1 false)],
    .jobj [("title", .jstr "Physical Challenge"),
      ("description", .jstr "Do some form of exercise for at least 20 minutes."),
      ("difficulty", .jstr "medium"), ("reward_xp", .jnum 20 false),
      ("reward_strength", .jnum 2 false), ("reward_endurance", .jnum 2 false)],
    .jobj [("title", .jstr "Social Connection"),
      ("description", .jstr "Have a meaningful conversation or help someone today."),
      ("difficulty", .jstr "easy"), ("reward_xp", .jnum 12 false),
      ("reward_charisma", .jnum 2 false), ("reward_luck", .jnum 1 false)],
    .jobj [("title", .jstr "Mindful Moment"),
      ("description", .jstr "Practice mindfulness, meditation, or reflection for 10 minutes."),
      ("difficulty", .jstr "easy"), ("reward_xp", .jnum 10 false),
      ("reward_endurance", .jnum 1 false), ("reward_intelligence", .jnum 1 false)],
    .jobj [("title", .jstr "Creative Expression"),
      ("description", .jstr "Create something - write, draw, code, or make something with your hands."),
      ("difficulty", .jstr "medium"), ("reward_xp", .jnum 18 false),
      ("reward_charisma", .jnum 1 false), ("reward_intelligence", .jnum 1 false),
      ("reward_luck", .jnum 1 false)] ]

/-- The `try` body of `generate_daily_quests` (utils.py lines 230-261): take
the AI reply (the network collaborator is the `ai_response` parameter; the
prompt built from the profile only shapes that reply), extract the first
greedy bracketed array, `json.loads` it (a parse failure raises out to the
`except`), and run the creation loop over the parsed elements.  When the
reply contains no bracketed array, the canned `generate_fallback_quests`
dictionaries are substituted as `quests_data` and flow through the same
creation loop, so `generated_by_ai` remains true for them.  The returned list
models `created_quests`; rows inserted before a mid-loop failure are database
side effects the pure model does not track. -/
def attemptAiQuests (now_day : Int) (ai_response : String) : Except Unit (List Quest) :=
  match bracketSearch ai_response.toList with
  | some sub =>
    match json_loads (String.mk sub) with
    | some (.jarr elems) => elems.mapM (createQuestFromData now_day)
    | some _ => .error ()
    | none => .error ()
  | none => fallbackQuestsData.mapM (createQuestFromData now_day)

/-- `generate_fallback_quests(profile, create_objects=True)` (utils.py lines
314-334): the creation loop unrolled over the static table, with
`generated_by_ai=False`; `quest_data['title']` indexes directly and the stat
rewards use `.get(key, 0)` defaults. -/
def generate_fallback_quests_create (now_day : Int) : List Quest :=
  [ { title := "Knowledge Seeker",
      description := "Read for 30 minutes or learn something new today.",
      quest_type := "daily", difficulty := "easy", reward_xp := 15,
      reward_strength := 0, reward_intelligence := 2, reward_charisma := 0,
      reward_endurance := 1, reward_luck := 0, completed := false,
      completed_at := none, due_date := some (now_day + 1), generated_by_ai := false },
    { title := "Physical Challenge",
      description := "Do some form of exercise for at least 20 minutes.",
      quest_type := "daily", difficulty := "medium", reward_xp := 20,
      reward_strength := 2, reward_intelligence := 0, reward_charisma := 0,
      reward_endurance := 2, reward_luck := 0, completed := false,
      completed_at := none, due_date := some (now_day + 1), generated_by_ai := false },
    { title := "Social Connection",
      description := "Have a meaningful conversation or help someone today.",
      quest_type := "daily", difficulty := "easy", reward_xp := 12,
      reward_strength := 0, reward_intelligence := 0, reward_charisma := 2,
      reward_endurance := 0, reward_luck := 1, completed := false,
      completed_at := none, due_date := some (now_day + 1), generated_by_ai := false },
    { title := "Mindful Moment",
      description := "Practice mindfulness, meditation, or reflection for 10 minutes.",
      quest_type := "daily", difficulty := "easy", reward_xp := 10,
      reward_strength := 0, reward_intelligence := 1, reward_charisma := 0,
      reward_endurance := 1, reward_luck := 0, completed := false,
      completed_at := none, due_date := some (now_day + 1), generated_by_ai := false },
    { title := "Creative Expression",
      description := "Create something - write, draw, code, or make something with your hands.",
      quest_type := "daily", difficulty := "medium", reward_xp := 18,
      reward_strength := 0, reward_intelligence := 1, reward_charisma := 1,
      reward_endurance := 0, reward_luck := 1, completed := false,
      completed_at := none, due_date := some (now_day + 1), generated_by_ai := false } ]

/-- `generate_daily_quests` (utils.py lines 192-265): the `try` body, with
any exception (malformed JSON, a non-dict element, a reward value the integer
field rejects) recovered by `generate_fallback_quests(profile,
create_objects=True)`. -/
def generate_daily_quests (now_day : Int) (ai_response : String) : List Quest :=
  match attemptAiQuests now_day ai_response with
  | .ok qs => qs
  | .error _ => generate_fallback_quests_create now_day

/-- Inversion of a successful creation-loop round: the reward fields are the
coerced `.get` values, and the fixed fields are as hard-coded in the call. -/
theorem createQuestFromData_inv (d : Int) (kvs : List (String × Json)) (q : Quest)
    (h : createQuestFromData d (.jobj kvs) = .ok q) :
    intFieldPrep ((jsonGet kvs "reward_xp").getD (.jnum 15 false)) = .ok q.reward_xp ∧
    intFieldPrep ((jsonGet kvs "reward_strength").getD (.jnum 0 false)) = .ok q.reward_strength ∧
    intFieldPrep ((jsonGet kvs "reward_intelligence").getD (.jnum 0 false)) = .ok q.reward_intelligence ∧
    intFieldPrep ((jsonGet kvs "reward_charisma").getD (.jnum 0 false)) = .ok q.reward_charisma ∧
    intFieldPrep ((jsonGet kvs "reward_endurance").getD (.jnum 0 false)) = .ok q.reward_endurance ∧
    intFieldPrep ((jsonGet kvs "reward_luck").getD (.jnum 0 false)) = .ok q.reward_luck ∧
    q.generated_by_ai = true ∧ q.due_date = some (d + 1) := by
  simp only [createQuestFromData, bind, Except.bind] at h
  cases h1 : intFieldPrep ((jsonGet kvs "reward_xp").getD (.jnum 15 false)) with
  | error e => simp [h1] at h
  | ok x1 =>
  simp only [h1] at h
  cases h2 : intFieldPrep ((jsonGet kvs "reward_strength").getD (.jnum 0 false)) with
  | error e => simp [h2] at h
  | ok x2 =>
  simp only [h2] at h
  cases h3 : intFieldPrep ((jsonGet kvs "reward_intelligence").getD (.jnum 0 false)) with
  | error e => simp [h3] at h
  | ok x3 =>
  simp only [h3] at h
  cases h4 : intFieldPrep ((jsonGet kvs "reward_charisma").getD (.jnum 0 false)) with
  | error e => simp [h4] at h
  | ok x4 =>
  simp only [h4] at h
  cases h5 : intFieldPrep ((jsonGet kvs "reward_endurance").getD (.jnum 0 false)) with
  | error e => simp [h5] at h
  | ok x5 =>
  simp only [h5] at h
  cases h6 : intFieldPrep ((jsonGet kvs "reward_luck").getD (.jnum 0 false)) with
  | error e => simp [h6] at h
  | ok x6 =>
  simp only [h6] at h
  injection h with h7
  subst h7
  exact ⟨rfl, rfl, rfl, rfl, rfl, rfl, rfl, rfl⟩

/-- Every quest produced by a successful creation loop carries
`generated_by_ai = true`, and the loop is length-preserving. -/
theorem mapM_createQuest_props (d : Int) :
    ∀ (l : List Json) (qs : List Quest),
      l.mapM (createQuestFromData d) = .ok qs →
      qs.length = l.length ∧ ∀ q ∈ qs, q.generated_by_ai = true := by
  intro l
  induction l with
  | nil =>
    intro qs h
    simp only [List.mapM_nil, pure, Except.pure] at h
    injection h with h2
    subst h2
    simp
  | cons a t ih =>
    intro qs h
    rw [List.mapM_cons] at h
    revert h
    cases hfa : createQuestFromData d a with
    | error e => intro h; simp only [bind, Except.bind] at h; exact Except.noConfusion h
    | ok b =>
      cases hft : t.mapM (createQuestFromData d) with
      | error e => intro h; simp only [bind, Except.bind] at h; exact Except.noConfusion h
      | ok bs =>
        intro h
        simp only [bind, Except.bind, pure, Except.pure] at h
        injection h with h2
        subst h2
        obtain ⟨hlen, hall⟩ := ih bs hft
        refine ⟨by simp [hlen], ?_⟩
        intro q hq
        rcases List.mem_cons.mp hq with rfl | hmem
        · cases a with
          | jobj kvs => exact (createQuestFromData_inv d kvs q hfa).2.2.2.2.2.2.1
          | jnull => simp [createQuestFromData] at hfa
          | jbool b2 => simp [createQuestFromData] at hfa
          | jnum n f => simp [createQuestFromData] at hfa
          | jstr s => simp [createQuestFromData] at hfa
          | jarr xs => simp [createQuestFromData] at hfa
          | jnan => simp [createQuestFromData] at hfa
        · exact hall q hmem

/-- Counterexample to claim C6 as stated: a reply with no bracketed array at
all ("hello") takes the documented fallback (the fixed 5-item canned set),
yet every created quest has `generated_by_ai = true`, because the canned
dictionaries are substituted into the AI-path creation loop rather than the
exception path. -/
theorem generated_by_ai_flag_cex :
    (generate_daily_quests 0 "hello").map (fun q => q.title) =
      ["Knowledge Seeker", "Physical Challenge", "Social Connection",
       "Mindful Moment", "Creative Expression"] ∧
    (generate_daily_quests 0 "hello").map (fun q => q.generated_by_ai) =
      [true, true, true, true, true] := by
  constructor <;> rfl

/-- Claim C6 as amended: `generated_by_ai` is true for every quest created by
the main creation loop — both AI-sourced data and the canned table
substituted when the reply lacks a bracketed array — and false exactly for
the quests created on the exception path (malformed JSON or a creation
failure). -/
theorem generated_by_ai_flag (d : Int) (reply : String) :
    (∀ qs, attemptAiQuests d reply = .ok qs →
        generate_daily_quests d reply = qs ∧ ∀ q ∈ qs, q.generated_by_ai = true) ∧
    (∀ e : Unit, attemptAiQuests d reply = .error e →
        generate_daily_quests d reply = generate_fallback_quests_create d ∧
        ∀ q ∈ generate_daily_quests d reply, q.generated_by_ai = false) := by
  constructor
  · intro qs h
    refine ⟨by simp [generate_daily_quests, h], ?_⟩
    intro q hq
    unfold attemptAiQuests at h
    revert h
    cases hbr : bracketSearch reply.toList with
    | none =>
      intro h
      exact (mapM_createQuest_props d _ _ h).2 q hq
    | some sub =>
      cases hld : json_loads (String.mk sub) with
      | none => intro h; simp [hld] at h
      | some v =>
        cases v with
        | jarr elems =>
          intro h
          simp only [hld] at h
          exact (mapM_createQuest_props d _ _ h).2 q hq
        | jnull => intro h; simp [hld] at h
        | jbool b => intro h; simp [hld] at h
        | jnum n f => intro h; simp [hld] at h
        | jstr s => intro h; simp [hld] at h
        | jobj kvs => intro h; simp [hld] at h
        | jnan => intro h; simp [hld] at h
  · intro e h
    refine ⟨by simp [generate_daily_quests, h], ?_⟩
    intro q hq
    simp only [generate_daily_quests, h] at hq
    fin_cases hq <;> rfl

/-- Witness for the amended C6 at concrete inputs: a reply whose array
contains a non-dict element raises and lands on the exception path with flag
false, and a well-formed reply creates flag-true quests. -/
theorem generated_by_ai_flag_witness :
    generate_daily_quests 0 "[5]" = generate_fallback_quests_create 0 ∧
    generate_daily_quests 7 "ok: [\x7b\"title\": \"Run\"\x7d]" =
      [{ title := "Run", description := "Complete this challenge to grow stronger.",
         quest_type := "daily", difficulty := "medium", reward_xp := 15,
         reward_strength := 0, reward_intelligence := 0, reward_charisma := 0,
         reward_endurance := 0, reward_luck := 0, completed := false,
         completed_at := none, due_date := some 8, generated_by_ai := true }] :=
  ⟨((generated_by_ai_flag 0 "[5]").2 () rfl).1,
   ((generated_by_ai_flag 7 "ok: [\x7b\"title\": \"Run\"\x7d]").1 _ rfl).1⟩

/-- Counterexample to claim C7 as stated: the reply "[]" (an empty JSON
array, which the claim explicitly includes) produces an empty quest list, and
an AI-supplied negative reward value passes through unclamped, so neither the
non-emptiness nor the ≥ 0 bound holds. -/
theorem gen_rewards_cex :
    generate_daily_quests 0 "[]" = [] ∧
    (generate_daily_quests 0 "[\x7b\"reward_xp\": -5\x7d]").map
      (fun q => q.reward_xp) = [-5] := by
  constructor <;> rfl

/-- Claim C7 as amended: the returned quest records always carry integer
reward fields; a reward key missing from an AI quest object is substituted by
0 for stats and 15 for XP; the exception path (non-numeric rewards, non-dict
elements, malformed JSON) yields the canned set whose rewards are all ≥ 0;
and the result is empty exactly when the reply contains a well-formed empty
JSON array (AI-supplied numeric values, including negative ones, are passed
through unclamped). -/
theorem gen_rewards (d : Int) (reply : String) :
    (generate_daily_quests d reply = [] ↔
      ∃ sub, bracketSearch reply.toList = some sub ∧
        json_loads (String.mk sub) = some (.jarr [])) ∧
    (∀ kvs q, createQuestFromData d (.jobj kvs) = .ok q →
      (jsonGet kvs "reward_xp" = none → q.reward_xp = 15) ∧
      (jsonGet kvs "reward_strength" = none → q.reward_strength = 0) ∧
      (jsonGet kvs "reward_intelligence" = none → q.reward_intelligence = 0) ∧
      (jsonGet kvs "reward_charisma" = none → q.reward_charisma = 0) ∧
      (jsonGet kvs "reward_endurance" = none → q.reward_endurance = 0) ∧
      (jsonGet kvs "reward_luck" = none → q.reward_luck = 0)) ∧
    (∀ q ∈ generate_fallback_quests_create d,
      0 ≤ q.reward_xp ∧ 0 ≤ q.reward_strength ∧ 0 ≤ q.reward_intelligence ∧
      0 ≤ q.reward_charisma ∧ 0 ≤ q.reward_endurance ∧ 0 ≤ q.reward_luck) := by
  refine ⟨?_, ?_, ?_⟩
  · constructor
    · intro hempty
      unfold generate_daily_quests attemptAiQuests at hempty
      revert hempty
      cases hbr : bracketSearch reply.toList with
      | none =>
        cases hfb : fallbackQuestsData.mapM (createQuestFromData d) with
        | error e =>
          intro hempty
          simp only [hfb] at hempty
          simp [generate_fallback_quests_create] at hempty
        | ok qs =>
          intro hempty
          simp only [hfb] at hempty
          have hlen := (mapM_createQuest_props d _ _ hfb).1
          rw [hempty] at hlen
          simp [fallbackQuestsData] at hlen
      | some sub =>
        cases hld : json_loads (String.mk sub) with
        | none =>
          intro hempty
          simp only [hld] at hempty
          simp [generate_fallback_quests_create] at hempty
        | some v =>
          cases v with
          | jarr elems =>
            cases elems with
            | nil => intro hempty; exact ⟨sub, rfl, hld⟩
            | cons a t =>
              cases hmm : (a :: t).mapM (createQuestFromData d) with
              | error e =>
                intro hempty
                simp only [hld, hmm] at hempty
                simp [generate_fallback_quests_create] at hempty
              | ok qs =>
                intro hempty
                simp only [hld, hmm] at hempty
                have hlen := (mapM_createQuest_props d _ _ hmm).1
                rw [hempty] at hlen
                simp at hlen
          | jnull => intro hempty; simp only [hld] at hempty
                     simp [generate_fallback_quests_create] at hempty
          | jbool b => intro hempty; simp only [hld] at hempty
                       simp [generate_fallback_quests_create] at hempty
          | jnum n f => intro hempty; simp only [hld] at hempty
                        simp [generate_fallback_quests_create] at hempty
          | jstr s => intro hempty; simp only [hld] at hempty
                      simp [generate_fallback_quests_create] at hempty
          | jobj kvs => intro hempty; simp only [hld] at hempty
                        simp [generate_fallback_quests_create] at hempty
          | jnan => intro hempty; simp only [hld] at hempty
                    simp [generate_fallback_quests_create] at hempty
    · rintro ⟨sub, hbr, hld⟩
      unfold generate_daily_quests attemptAiQuests
      simp only [hbr]
      simp only [hld]
      rfl
  · intro kvs q h
    obtain ⟨h1, h2, h3, h4, h5, h6, _, _⟩ := createQuestFromData_inv d kvs q h
    refine ⟨?_, ?_, ?_, ?_, ?_, ?_⟩
    · intro hn; rw [hn] at h1; simp [intFieldPrep] at h1; omega
    · intro hn; rw [hn] at h2; simp [intFieldPrep] at h2; omega
    · intro hn; rw [hn] at h3; simp [intFieldPrep] at h3; omega
    · intro hn; rw [hn] at h4; simp [intFieldPrep] at h4; omega
    · intro hn; rw [hn] at h5; simp [intFieldPrep] at h5; omega
    · intro hn; rw [hn] at h6; simp [intFieldPrep] at h6; omega
  · intro q hq
    fin_cases hq <;>
      exact ⟨by norm_num, by norm_num, by norm_num, by norm_num, by norm_num, by norm_num⟩

/-- Witness for the amended C7 at concrete inputs: the empty-array reply
gives the empty list, an object with no reward keys gets the 15/0 defaults,
and the canned set is nonnegative. -/
theorem gen_rewards_witness :
    generate_daily_quests 0 "[]" = [] ∧
    ({ title := "Daily Challenge",
       description := "Complete this challenge to grow stronger.",
       quest_type := "daily", difficulty := "medium", reward_xp := 15,
       reward_strength := 0, reward_intelligence := 0, reward_charisma := 0,
       reward_endurance := 0, reward_luck := 0, completed := false,
       completed_at := none, due_date := some 1,
       generated_by_ai := true } : Quest).reward_xp = 15 := by
  have h := gen_rewards 0 "[]"
  refine ⟨h.1.mpr ⟨['[', ']'], rfl, rfl⟩, ?_⟩
  exact ((h.2.1 [] _ rfl).1) rfl

/-!
Embedding of `parse_ai_action` (utils.py lines 45-162).  The returned Python
dict `action_data` becomes an insertion-ordered association map; the fallible
persistence collaborators (object creation, `save()`, the habit existence
query) are a `Db` record of `Except` results, each call behaving identically
within one invocation.  The outer `try`/`except` of the source catches any of
their failures and returns the action map accumulated so far, with the
in-memory profile keeping every mutation already applied.
-/

/-- A value of the `action_data` dict: merged JSON keys, the `stat_gains`
sub-dict, the `xp` integer, or the `habit_created`/`quest_created` names. -/
inductive ActionVal where
  | fromJson : Json → ActionVal
  | statsVal : List (String × Nat) → ActionVal
  | numVal : Nat → ActionVal
  | strVal : String → ActionVal

/-- The `action_data` dict: insertion-ordered key/value pairs. -/
abbrev ActionMap : Type := List (String × ActionVal)

/-- Python dict assignment `m[k] = v`: replace in place, else append. -/
def mapSet (m : ActionMap) (k : String) (v : ActionVal) : ActionMap :=
  if (List.any m fun kv => kv.1 == k) then
    List.map (fun kv => if kv.1 == k then (k, v) else kv) m
  else m ++ [(k, v)]

/-- `action_data.update(parsed_json)`: fold the parsed pairs in order. -/
def mapUpdateJson (m : ActionMap) (kvs : List (String × Json)) : ActionMap :=
  kvs.foldl (fun acc kv => mapSet acc kv.1 (.fromJson kv.2)) m

/-- `action_data.get(k)`: first (unique) binding. -/
def mapGet (m : ActionMap) (k : String) : Option ActionVal :=
  (List.find? (fun kv => kv.1 == k) m).map (fun kv => kv.2)

/-- Python truthiness of an action-map value. -/
def actionTruthy : ActionVal → Bool
  | .fromJson j => jsonTruthy j
  | .statsVal l => !l.isEmpty
  | .numVal n => n != 0
  | .strVal s => !s.isEmpty

/-- The fallible persistence collaborators `parse_ai_action` calls; each is
deterministic for the duration of one call.  `profileSave` backs both the
`save()` inside `add_xp` and the later explicit `profile.save()`;
`habitLookup` is `Habit.objects.filter(name__icontains=...).exists()` keyed
by the queried 10-character prefix. -/
structure Db where
  profileSave : Except Unit Unit
  habitLookup : String → Except Unit Bool
  habitCreate : Except Unit Unit
  questCreate : Except Unit Unit
  logCreate : Except Unit Unit

/-- The stat-gain markers of utils.py lines 67-73, in dict insertion order:
field name and the literal of its pattern. -/
def statPatternWords : List (String × List Char) :=
  [("strength", ['s', 't', 'r']), ("intelligence", ['i', 'n', 't']),
   ("charisma", ['c', 'h', 'r']), ("endurance", ['e', 'n', 'd']),
   ("luck", ['l', 'c', 'k'])]

/-- The loop of utils.py lines 78-85 restricted to its pure part: the
`stat_gains` dict built in pattern order from the matches. -/
def scanStatGains (lower : List Char) : List (String × Nat) :=
  statPatternWords.foldl
    (fun acc sw =>
      match searchPlusNum [sw.2] lower with
      | some n => acc ++ [(sw.1, n)]
      | none => acc) []

/-- `setattr(profile, stat, getattr(profile, stat) + gain)` for the five stat
names. -/
def applyStatGain (p : Profile) (stat : String) (n : Nat) : Profile :=
  if stat = "strength" then { p with strength := p.strength + (n : Int) }
  else if stat = "intelligence" then { p with intelligence := p.intelligence + (n : Int) }
  else if stat = "charisma" then { p with charisma := p.charisma + (n : Int) }
  else if stat = "endurance" then { p with endurance := p.endurance + (n : Int) }
  else if stat = "luck" then { p with luck := p.luck + (n : Int) }
  else p

/-- Immediate application of every scanned stat gain, in scan order. -/
def applyStatGains (p : Profile) (gains : List (String × Nat)) : Profile :=
  gains.foldl (fun q g => applyStatGain q g.1 g.2) p

/-- The XP-marker alternatives `(?:xp|exp)` of utils.py line 88. -/
def xpWords : List (List Char) := [['x', 'p'], ['e', 'x', 'p']]

/-- Step 1 of the parser (utils.py lines 54-61): search the raw reply for
`\x7b[^\x7d]*\x7d`, `json.loads` the match into `action_data`; the inner
`try`/`except: pass` swallows a parse failure, leaving the map empty. -/
def jsonActionMap (text : String) : ActionMap :=
  match braceSearch text.toList with
  | some sub =>
    match json_loads (String.mk sub) with
    | some (.jobj kvs) => mapUpdateJson [] kvs
    | _ => []
  | none => []

/-- The XP block (utils.py lines 88-91): when the marker matched, run the
cascade on the already-stat-boosted profile; the `save()` inside `add_xp` is
the first fallible call, and a failure there escapes to the outer handler
with the profile already mutated in memory. -/
def xpAddStage (db : Db) (xpOpt : Option Nat) (m0 : ActionMap) (p1 : Profile) :
    Except (ActionMap × Profile) (ActionMap × Profile) :=
  match xpOpt with
  | none => .ok (m0, p1)
  | some n =>
    let p2 := add_xp p1 (n : Int)
    match db.profileSave with
    | .error _ => .error (m0, p2)
    | .ok _ => .ok (m0, p2)

/-- The habit-creation block (utils.py lines 94-115): on a pattern match,
titlecase the capture, test existence by the 10-character prefix, create when
absent and only then record `habit_created`; the existence query and the
creation can each raise. -/
def habitStage (db : Db) (lower : List Char) (st : ActionMap × Profile) :
    Except (ActionMap × Profile) (ActionMap × Profile) :=
  match findHabitName lower with
  | none => .ok st
  | some cap =>
    let habit_name := pyTitle cap
    match db.habitLookup (habit_name.take 10) with
    | .error _ => .error st
    | .ok true => .ok st
    | .ok false =>
      match db.habitCreate with
      | .error _ => .error st
      | .ok _ => .ok (mapSet st.1 "habit_created" (.strVal habit_name), st.2)

/-- The quest-creation block (utils.py lines 118-140): on a pattern match,
create unconditionally and record `quest_created`. -/
def questStage (db : Db) (lower : List Char) (st : ActionMap × Profile) :
    Except (ActionMap × Profile) (ActionMap × Profile) :=
  match findQuestTitle lower with
  | none => .ok st
  | some cap =>
    match db.questCreate with
    | .error _ => .error st
    | .ok _ => .ok (mapSet st.1 "quest_created" (.strVal (pyTitle cap)), st.2)

/-- Lines 142-144: when any stat gain was scanned, record `stat_gains` in the
map and then `profile.save()` — the key is present even if the save then
raises. -/
def statsMapStage (db : Db) (gains : List (String × Nat)) (st : ActionMap × Profile) :
    Except (ActionMap × Profile) (ActionMap × Profile) :=
  if gains.isEmpty then .ok st
  else
    let m := mapSet st.1 "stat_gains" (.statsVal gains)
    match db.profileSave with
    | .error _ => .error (m, st.2)
    | .ok _ => .ok (m, st.2)

/-- Lines 146-147: record `xp` only when the scanned amount is truthy (a
matched `+0 xp` runs the cascade but adds no key). -/
def xpMapStage (xp_gained : Nat) (st : ActionMap × Profile) : ActionMap × Profile :=
  if xp_gained != 0 then (mapSet st.1 "xp" (.numVal xp_gained), st.2) else st

/-- Lines 150-156: write one audit LogEntry when any mutation occurred; the
guards read the map (so JSON-merged `habit_created`/`quest_created` keys also
count, with Python truthiness). -/
def logStage (db : Db) (gains : List (String × Nat)) (xp_gained : Nat)
    (st : ActionMap × Profile) : Except (ActionMap × Profile) (ActionMap × Profile) :=
  if !gains.isEmpty || xp_gained != 0 ||
      ((mapGet st.1 "habit_created").map actionTruthy).getD false ||
      ((mapGet st.1 "quest_created").map actionTruthy).getD false then
    match db.logCreate with
    | .error _ => .error st
    | .ok _ => .ok st
  else .ok st

/-- The `try` body of `parse_ai_action`, staged in source order; an error
carries the state (map and in-memory profile) at the failure point. -/
def parse_body (db : Db) (text : String) (p : Profile) :
    Except (ActionMap × Profile) (ActionMap × Profile) := do
  let lower := pyLower text
  let gains := scanStatGains lower
  let xpOpt := searchPlusNum xpWords lower
  let st1 ← xpAddStage db xpOpt (jsonActionMap text) (applyStatGains p gains)
  let st2 ← habitStage db lower st1
  let st3 ← questStage db lower st2
  let st4 ← statsMapStage db gains st3
  logStage db gains (xpOpt.getD 0) (xpMapStage (xpOpt.getD 0) st4)

/-- `parse_ai_action` (utils.py lines 45-162): the body under the outer
`except Exception`, which returns the accumulated `action_data`; the profile
component is the in-memory object state the caller observes afterward. -/
def parse_ai_action (db : Db) (text : String) (p : Profile) : ActionMap × Profile :=
  match parse_body db text p with
  | .ok st => st
  | .error st => st

/-- The in-memory profile after a call: stat gains applied at scan time, then
the XP cascade when the marker matched — unconditionally, since nothing
fallible precedes these mutations. -/
def parseProfileResult (text : String) (p : Profile) : Profile :=
  let p1 := applyStatGains p (scanStatGains (pyLower text))
  match searchPlusNum xpWords (pyLower text) with
  | some n => add_xp p1 (n : Int)
  | none => p1

/-- The map after a successful habit block. -/
def habitMapNext (db : Db) (lower : List Char) (m : ActionMap) : ActionMap :=
  match findHabitName lower with
  | none => m
  | some cap =>
    match db.habitLookup ((pyTitle cap).take 10), db.habitCreate with
    | .ok false, .ok _ => mapSet m "habit_created" (.strVal (pyTitle cap))
    | _, _ => m

/-- The map after a successful quest block. -/
def questMapNext (db : Db) (lower : List Char) (m : ActionMap) : ActionMap :=
  match findQuestTitle lower with
  | none => m
  | some cap =>
    match db.questCreate with
    | .ok _ => mapSet m "quest_created" (.strVal (pyTitle cap))
    | _ => m

/-- The map after the `stat_gains` assignment. -/
def statsMapNext (gains : List (String × Nat)) (m : ActionMap) : ActionMap :=
  if gains.isEmpty then m else mapSet m "stat_gains" (.statsVal gains)

/-- The map after the `xp` assignment. -/
def xpMapNext (xp : Nat) (m : ActionMap) : ActionMap :=
  if xp != 0 then mapSet m "xp" (.numVal xp) else m

/-- The successive accumulation states of `action_data`: after the JSON
merge, then after each block that extends the map.  Whatever fails,
`parse_ai_action` returns one of these. -/
def parseStageMaps (db : Db) (text : String) : List ActionMap :=
  let lower := pyLower text
  let gains := scanStatGains lower
  let xp := (searchPlusNum xpWords lower).getD 0
  let m0 := jsonActionMap text
  let m1 := habitMapNext db lower m0
  let m2 := questMapNext db lower m1
  let m3 := statsMapNext gains m2
  let m4 := xpMapNext xp m3
  [m0, m1, m2, m3, m4]

/-- The XP block either succeeds or escapes, in both cases with the map
untouched and the cascade already applied to the in-memory profile. -/
theorem xpAddStage_spec (db : Db) (xpOpt : Option Nat) (m0 : ActionMap) (p1 : Profile) :
    xpAddStage db xpOpt m0 p1 =
        .ok (m0, match xpOpt with | some n => add_xp p1 (n : Int) | none => p1) ∨
    xpAddStage db xpOpt m0 p1 =
        .error (m0, match xpOpt with | some n => add_xp p1 (n : Int) | none => p1) := by
  cases xpOpt with
  | none => left; rfl
  | some n =>
    cases h : db.profileSave with
    | error e => right; simp [xpAddStage, h]
    | ok u => left; simp [xpAddStage, h]

/-- With a working save, the XP block succeeds. -/
theorem xpAddStage_ok (db : Db) (xpOpt : Option Nat) (m0 : ActionMap) (p1 : Profile)
    (hsave : db.profileSave = .ok ()) :
    xpAddStage db xpOpt m0 p1 =
      .ok (m0, match xpOpt with | some n => add_xp p1 (n : Int) | none => p1) := by
  cases xpOpt with
  | none => rfl
  | some n => simp [xpAddStage, hsave]

/-- The habit block either succeeds, advancing the map to `habitMapNext`, or
escapes with the state unchanged. -/
theorem habitStage_spec (db : Db) (lower : List Char) (st : ActionMap × Profile) :
    habitStage db lower st = .ok (habitMapNext db lower st.1, st.2) ∨
    habitStage db lower st = .error st := by
  unfold habitStage habitMapNext
  cases hfn : findHabitName lower with
  | none => left; rfl
  | some cap =>
    cases hlk : db.habitLookup ((pyTitle cap).take 10) with
    | error e => right; simp [hlk]
    | ok b =>
      cases b with
      | true => left; simp [hlk]
      | false =>
        cases hc : db.habitCreate with
        | error e => right; simp [hlk, hc]
        | ok u => left; simp [hlk, hc]

/-- With working collaborators, the habit block succeeds. -/
theorem habitStage_ok (db : Db) (lower : List Char) (st : ActionMap × Profile)
    (hlk : ∀ s, ∃ b, db.habitLookup s = .ok b) (hc : db.habitCreate = .ok ()) :
    habitStage db lower st = .ok (habitMapNext db lower st.1, st.2) := by
  unfold habitStage habitMapNext
  cases hfn : findHabitName lower with
  | none => rfl
  | some cap =>
    obtain ⟨b, hb⟩ := hlk ((pyTitle cap).take 10)
    cases b with
    | true => simp [hb]
    | false => simp [hb, hc]

/-- The quest block either succeeds, advancing the map to `questMapNext`, or
escapes with the state unchanged. -/
theorem questStage_spec (db : Db) (lower : List Char) (st : ActionMap × Profile) :
    questStage db lower st = .ok (questMapNext db lower st.1, st.2) ∨
    questStage db lower st = .error st := by
  unfold questStage questMapNext
  cases hfn : findQuestTitle lower with
  | none => left; rfl
  | some cap =>
    cases hc : db.questCreate with
    | error e => right; simp [hc]
    | ok u => left; simp [hc]

/-- With a working creation collaborator, the quest block succeeds. -/
theorem questStage_ok (db : Db) (lower : List Char) (st : ActionMap × Profile)
    (hc : db.questCreate = .ok ()) :
    questStage db lower st = .ok (questMapNext db lower st.1, st.2) := by
  unfold questStage questMapNext
  cases hfn : findQuestTitle lower with
  | none => rfl
  | some cap => simp [hc]

/-- The `stat_gains` block records the key before saving, so both outcomes
carry the advanced map. -/
theorem statsMapStage_spec (db : Db) (gains : List (String × Nat)) (st : ActionMap × Profile) :
    statsMapStage db gains st = .ok (statsMapNext gains st.1, st.2) ∨
    statsMapStage db gains st = .error (statsMapNext gains st.1, st.2) := by
  unfold statsMapStage statsMapNext
  cases hg : gains.isEmpty with
  | true => left; simp
  | false =>
    cases h : db.profileSave with
    | error e => right; simp [h]
    | ok u => left; simp [h]

/-- With a working save, the `stat_gains` block succeeds. -/
theorem statsMapStage_ok (db : Db) (gains : List (String × Nat)) (st : ActionMap × Profile)
    (hsave : db.profileSave = .ok ()) :
    statsMapStage db gains st = .ok (statsMapNext gains st.1, st.2) := by
  unfold statsMapStage statsMapNext
  cases hg : gains.isEmpty with
  | true => simp
  | false => simp [hsave]

/-- The pure `xp` key assignment. -/
theorem xpMapStage_eq (xp : Nat) (st : ActionMap × Profile) :
    xpMapStage xp st = (xpMapNext xp st.1, st.2) := by
  unfold xpMapStage xpMapNext
  by_cases h : (xp != 0) = true
  · simp [h]
  · simp [h]

/-- The audit-log write never changes the returned state, whichever way it
goes. -/
theorem logStage_spec (db : Db) (gains : List (String × Nat)) (xp : Nat)
    (st : ActionMap × Profile) :
    logStage db gains xp st = .ok st ∨ logStage db gains xp st = .error st := by
  unfold logStage
  by_cases h : (!gains.isEmpty || xp != 0 ||
      ((mapGet st.1 "habit_created").map actionTruthy).getD false ||
      ((mapGet st.1 "quest_created").map actionTruthy).getD false) = true
  · cases hl : db.logCreate with
    | error e => right; simp [h, hl]
    | ok u => left; simp [h, hl]
  · left; simp [h]

/-- With a working log collaborator, the final block succeeds. -/
theorem logStage_ok (db : Db) (gains : List (String × Nat)) (xp : Nat)
    (st : ActionMap × Profile) (hl : db.logCreate = .ok ()) :
    logStage db gains xp st = .ok st := by
  unfold logStage
  by_cases h : (!gains.isEmpty || xp != 0 ||
      ((mapGet st.1 "habit_created").map actionTruthy).getD false ||
      ((mapGet st.1 "quest_created").map actionTruthy).getD false) = true
  · simp [h, hl]
  · simp [h]

/-- Claim C8: `parse_ai_action` never raises — under every collaborator
failure pattern it returns, the in-memory profile always carries exactly the
scanned mutations, the returned map is one of the successive accumulation
states of `action_data` (the partial map at the failure point), and with all
collaborators working it is the fully accumulated map. -/
theorem parse_never_raises (db : Db) (text : String) (p : Profile) :
    (parse_ai_action db text p).2 = parseProfileResult text p ∧
    (parse_ai_action db text p).1 ∈ parseStageMaps db text ∧
    (db.profileSave = .ok () → db.habitCreate = .ok () → db.questCreate = .ok () →
      db.logCreate = .ok () → (∀ s, ∃ b, db.habitLookup s = .ok b) →
      (parse_ai_action db text p).1 =
        xpMapNext ((searchPlusNum xpWords (pyLower text)).getD 0)
          (statsMapNext (scanStatGains (pyLower text))
            (questMapNext db (pyLower text)
              (habitMapNext db (pyLower text) (jsonActionMap text))))) := by
  simp only [parse_ai_action, parse_body, parseStageMaps, parseProfileResult]
  rcases xpAddStage_spec db (searchPlusNum xpWords (pyLower text)) (jsonActionMap text)
      (applyStatGains p (scanStatGains (pyLower text))) with h1 | h1 <;>
    rw [h1] <;> simp only [bind, Except.bind]
  case inr =>
    refine ⟨by trivial, by simp, ?_⟩
    intro hsave _ _ _ _
    rw [xpAddStage_ok db _ _ _ hsave] at h1
    exact Except.noConfusion h1
  case inl =>
  rcases habitStage_spec db (pyLower text)
      (jsonActionMap text,
        match searchPlusNum xpWords (pyLower text) with
        | some n => add_xp (applyStatGains p (scanStatGains (pyLower text))) (n : Int)
        | none => applyStatGains p (scanStatGains (pyLower text))) with h2 | h2 <;>
    rw [h2] <;> simp only [bind, Except.bind]
  case inr =>
    refine ⟨by trivial, by simp, ?_⟩
    intro _ hc _ _ hlk
    rw [habitStage_ok db _ _ hlk hc] at h2
    exact Except.noConfusion h2
  case inl =>
  rcases questStage_spec db (pyLower text)
      (habitMapNext db (pyLower text) (jsonActionMap text),
        match searchPlusNum xpWords (pyLower text) with
        | some n => add_xp (applyStatGains p (scanStatGains (pyLower text))) (n : Int)
        | none => applyStatGains p (scanStatGains (pyLower text))) with h3 | h3 <;>
    rw [h3] <;> simp only [bind, Except.bind]
  case inr =>
    refine ⟨by trivial, by simp, ?_⟩
    intro _ _ hq _ _
    rw [questStage_ok db _ _ hq] at h3
    exact Except.noConfusion h3
  case inl =>
  rcases statsMapStage_spec db (scanStatGains (pyLower text))
      (questMapNext db (pyLower text) (habitMapNext db (pyLower text) (jsonActionMap text)),
        match searchPlusNum xpWords (pyLower text) with
        | some n => add_xp (applyStatGains p (scanStatGains (pyLower text))) (n : Int)
        | none => applyStatGains p (scanStatGains (pyLower text))) with h4 | h4 <;>
    rw [h4] <;> simp only [bind, Except.bind]
  case inr =>
    refine ⟨by trivial, by simp, ?_⟩
    intro hsave _ _ _ _
    rw [statsMapStage_ok db _ _ hsave] at h4
    exact Except.noConfusion h4
  case inl =>
  rw [xpMapStage_eq]
  rcases logStage_spec db (scanStatGains (pyLower text))
      ((searchPlusNum xpWords (pyLower text)).getD 0)
      (xpMapNext ((searchPlusNum xpWords (pyLower text)).getD 0)
          (statsMapNext (scanStatGains (pyLower text))
            (questMapNext db (pyLower text)
              (habitMapNext db (pyLower text) (jsonActionMap text)))),
        match searchPlusNum xpWords (pyLower text) with
        | some n => add_xp (applyStatGains p (scanStatGains (pyLower text))) (n : Int)
        | none => applyStatGains p (scanStatGains (pyLower text))) with h5 | h5 <;>
    rw [h5] <;> exact ⟨by trivial, by simp, fun _ _ _ _ _ => by trivial⟩

/-- A fully working collaborator set, with no habit reported as already
existing (used by the concrete witnesses). -/
def dbOk : Db :=
  { profileSave := .ok (), habitLookup := fun _ => .ok false,
    habitCreate := .ok (), questCreate := .ok (), logCreate := .ok () }

/-- Witness for C8 at a concrete call: the success case hits the fully
accumulated map. -/
theorem parse_never_raises_witness :
    (parse_ai_action dbOk "You gained +2 STR and +15 XP!"
        ⟨1, 10, 10, 10, 10, 10, 0, 10000⟩).2 =
      parseProfileResult "You gained +2 STR and +15 XP!"
        ⟨1, 10, 10, 10, 10, 10, 0, 10000⟩ ∧
    (parse_ai_action dbOk "You gained +2 STR and +15 XP!"
        ⟨1, 10, 10, 10, 10, 10, 0, 10000⟩).1 ∈
      parseStageMaps dbOk "You gained +2 STR and +15 XP!" ∧
    (parse_ai_action dbOk "You gained +2 STR and +15 XP!"
        ⟨1, 10, 10, 10, 10, 10, 0, 10000⟩).1 =
      xpMapNext ((searchPlusNum xpWords (pyLower "You gained +2 STR and +15 XP!")).getD 0)
        (statsMapNext (scanStatGains (pyLower "You gained +2 STR and +15 XP!"))
          (questMapNext dbOk (pyLower "You gained +2 STR and +15 XP!")
            (habitMapNext dbOk (pyLower "You gained +2 STR and +15 XP!")
              (jsonActionMap "You gained +2 STR and +15 XP!")))) := by
  have h := parse_never_raises dbOk "You gained +2 STR and +15 XP!"
    ⟨1, 10, 10, 10, 10, 10, 0, 10000⟩
  exact ⟨h.1, h.2.1, h.2.2 rfl rfl rfl rfl (fun s => ⟨false, rfl⟩)⟩

/-- Claim C5: on the reply "You gained +2 STR and +15 XP!" (with working save
and log collaborators — the only ones this text reaches), `parse_ai_action`
adds exactly 2 to strength by flat assignment, routes exactly 15 XP through
`add_xp` on the already-boosted profile (so the cascade can fire), and the
returned action map contains `stat_gains = [strength ↦ 2]` and `xp = 15`. -/
theorem parse_ai_action_example (db : Db) (p : Profile)
    (hsave : db.profileSave = .ok ()) (hlog : db.logCreate = .ok ()) :
    mapGet (parse_ai_action db "You gained +2 STR and +15 XP!" p).1 "stat_gains" =
      some (.statsVal [("strength", 2)]) ∧
    mapGet (parse_ai_action db "You gained +2 STR and +15 XP!" p).1 "xp" =
      some (.numVal 15) ∧
    (parse_ai_action db "You gained +2 STR and +15 XP!" p).2 =
      add_xp { p with strength := p.strength + 2 } 15 := by
  have hgains : scanStatGains (pyLower "You gained +2 STR and +15 XP!") =
      [("strength", 2)] := rfl
  have hxpscan : searchPlusNum xpWords (pyLower "You gained +2 STR and +15 XP!") =
      some 15 := rfl
  have hhn : findHabitName (pyLower "You gained +2 STR and +15 XP!") = none := rfl
  have hqt : findQuestTitle (pyLower "You gained +2 STR and +15 XP!") = none := rfl
  have hjm : jsonActionMap "You gained +2 STR and +15 XP!" = [] := rfl
  have hhb : ∀ st, habitStage db (pyLower "You gained +2 STR and +15 XP!") st = .ok st :=
    fun st => by simp [habitStage, hhn]
  have hqb : ∀ st, questStage db (pyLower "You gained +2 STR and +15 XP!") st = .ok st :=
    fun st => by simp [questStage, hqt]
  have hsb : ∀ st : ActionMap × Profile,
      statsMapStage db [("strength", 2)] st =
        .ok (mapSet st.1 "stat_gains" (.statsVal [("strength", 2)]), st.2) :=
    fun st => by simp [statsMapStage, hsave]
  have hlb : ∀ st : ActionMap × Profile,
      logStage db [("strength", 2)] 15 st = .ok st :=
    fun st => by simp [logStage, hlog]
  have hxm : ∀ st : ActionMap × Profile,
      xpMapStage 15 st = (mapSet st.1 "xp" (.numVal 15), st.2) :=
    fun st => by simp [xpMapStage]
  have hxa : xpAddStage db (some 15) ([] : ActionMap) (applyStatGains p [("strength", 2)]) =
      .ok ([], add_xp (applyStatGains p [("strength", 2)]) ((15 : Nat) : Int)) := by
    simp [xpAddStage, hsave]
  have hprof : applyStatGains p [("strength", 2)] =
      { p with strength := p.strength + 2 } := by
    simp [applyStatGains, applyStatGain]
  simp only [parse_ai_action, parse_body, hgains, hxpscan, hjm, bind, Except.bind]
  simp only [hxa, hhb, hqb, hsb, Option.getD_some, hxm, hlb]
  refine ⟨rfl, rfl, ?_⟩
  rw [hprof]
  norm_num

/-- Witness for C5 at the default character with working collaborators. -/
theorem parse_ai_action_example_witness :
    mapGet (parse_ai_action dbOk "You gained +2 STR and +15 XP!"
        ⟨1, 10, 10, 10, 10, 10, 0, 10000⟩).1 "stat_gains" =
      some (.statsVal [("strength", 2)]) ∧
    mapGet (parse_ai_action dbOk "You gained +2 STR and +15 XP!"
        ⟨1, 10, 10, 10, 10, 10, 0, 10000⟩).1 "xp" = some (.numVal 15) ∧
    (parse_ai_action dbOk "You gained +2 STR and +15 XP!"
        ⟨1, 10, 10, 10, 10, 10, 0, 10000⟩).2 =
      add_xp ⟨1, 10 + 2, 10, 10, 10, 10, 0, 10000⟩ 15 :=
  parse_ai_action_example dbOk ⟨1, 10, 10, 10, 10, 10, 0, 10000⟩ rfl rfl

end Aura
